import Mathlib

/-!
# Verification of the Flask MCP server (`src/app.py`)

Shallow embedding of the tool/resource registry, the dispatcher and the
built-in handlers of `app.py`.

Modelling conventions:
* JSON / Python values passed in request bodies are modelled by `PyVal`
  (numbers, strings, booleans, `None`).  Object- and array-valued
  arguments are not needed by any verified property and are omitted.
* Python numbers are modelled by exact rationals (`ℚ`).  This coincides
  with IEEE double-precision arithmetic whenever every intermediate
  value is exactly representable, which is the case for every concrete
  input appearing in the theorems below.
* A Python `dict` of arguments is an association list `PyDict`;
  `PyDict.get` models `dict.get(key, default)` (first binding wins,
  mirroring the uniqueness of keys in a Python dict).
* Exceptions are modelled with `Except String`: the body of a `try:`
  block is a `... → Except String α` function and the `except` clause is
  an explicit `match` on its result.
* The wall clock (`datetime.now()`, `time.time()`) is passed in as an
  explicit parameter where a handler reads it.
-/

/-- A JSON-ish Python value as it arrives in a request body:
number, string, boolean or `None`. -/
inductive PyVal where
  | num (q : ℚ)
  | str (s : String)
  | pyBool (b : Bool)
  | pyNone
  deriving DecidableEq, Repr

/-- An arguments mapping (`params: dict`), keyed by strings. -/
def PyDict : Type := List (String × PyVal)

instance : DecidableEq PyDict := by
  unfold PyDict
  infer_instance

/-- First binding for `k`, mirroring Python dict key lookup
(`k in d`, `d[k]`). -/
def PyDict.lookup (d : PyDict) (k : String) : Option PyVal :=
  match d with
  | [] => Option.none
  | (k₀, v₀) :: rest => if k₀ = k then some v₀ else PyDict.lookup rest k

/-- `d.get(k, dflt)` from Python. -/
def PyDict.get (d : PyDict) (k : String) (dflt : PyVal) : PyVal :=
  match d.lookup k with
  | some v => v
  | Option.none => dflt

/-- Python truthiness (`if country:` …): non-zero numbers, non-empty
strings and `True` are truthy; `None`, `0`, `""` and `False` are falsy. -/
def pyTruthy : PyVal → Bool
  | .num q => q ≠ 0
  | .str s => s ≠ ""
  | .pyBool b => b
  | .pyNone => false

/-- Smallest exponent `k` with `den ∣ 10 ^ k`, for rendering a
terminating decimal expansion (bounded search; every value any theorem
below evaluates needs only small `k`). -/
def decExp (den : ℕ) : Option ℕ :=
  (List.range 400).find? (fun k => 10 ^ k % den = 0)

/-- Left-pad a digit string with zeros up to width `k`. -/
def padZeros (s : String) (k : ℕ) : String :=
  String.mk (List.replicate (k - s.length) (Char.ofNat 48)) ++ s

/-- `pyFloatStr` on a non-negative value: `<n>.0` for an integral value,
otherwise the exact terminating decimal expansion.  This matches Python
`str(float)` on every value the theorems below evaluate; a value whose
expansion does not terminate is rendered by its Lean `ℚ` notation as a
stand-in (there the exact-rational model has already diverged from the
IEEE double the source would hold, so no claim can depend on it). -/
def pyFloatStrNN (q : ℚ) : String :=
  if q.den = 1 then toString q.num ++ ".0"
  else
    match decExp q.den with
    | some k =>
        let ip := q.num.toNat / q.den
        let fr := q.num.toNat % q.den
        toString ip ++ "." ++ padZeros (toString (fr * 10 ^ k / q.den)) k
    | Option.none => toString q

/-- Python `str(float)` / f-string rendering of a numeric result
(e.g. `str(5.0) = "5.0"`, `str(2.5) = "2.5"`). -/
def pyFloatStr (q : ℚ) : String :=
  if q < 0 then "-" ++ pyFloatStrNN (-q) else pyFloatStrNN q

/-- f-string / `str()` rendering of an arbitrary Python value, as used
in `f"Unknown operation: {operation}"` and the not-found messages. -/
def pyStr : PyVal → String
  | .num q => pyFloatStr q
  | .str s => s
  | .pyBool b => if b then "True" else "False"
  | .pyNone => "None"

/-- Strip leading and trailing whitespace from a character list
(Python `float` ignores surrounding whitespace in its argument). -/
def trimChars (l : List Char) : List Char :=
  ((l.dropWhile Char.isWhitespace).reverse.dropWhile Char.isWhitespace).reverse

/-- Numeric value of a list of decimal digit characters. -/
def digitsVal (l : List Char) : ℕ :=
  l.foldl (fun acc c => 10 * acc + (c.toNat - 48)) 0

/-- Split a character list at every occurrence of `sep`, mirroring
`str.split` on a single-character separator. -/
def splitOnChar (sep : Char) (l : List Char) : List (List Char) :=
  match l with
  | [] => [[]]
  | c :: rest =>
      let r := splitOnChar sep rest
      if c = sep then [] :: r
      else
        match r with
        | [] => [[c]]
        | h :: t => (c :: h) :: t

/-- Split at every decimal point, as in parsing `float("2.5")`. -/
def splitDot (l : List Char) : List (List Char) :=
  splitOnChar (Char.ofNat 46) l

/-- The lines of a piece of text (split at every newline), used to state
the line-structure properties of the weather output. -/
def textLines (s : String) : List String :=
  (splitOnChar (Char.ofNat 10) s.data).map String.mk

/-- Decimal-string parsing for Python `float(str)`: optional surrounding
whitespace, optional sign, digits with at most one decimal point.
(Exponent / `inf` / `nan` forms are not produced by any verified claim
and are treated as conversion failures.) -/
def parsePyFloat (s : String) : Option ℚ :=
  let t := trimChars s.data
  let (sign, body) : ℚ × List Char :=
    match t with
    | c :: rest =>
        if c = Char.ofNat 45 then ((-1 : ℚ), rest)
        else if c = Char.ofNat 43 then ((1 : ℚ), rest)
        else ((1 : ℚ), t)
    | [] => ((1 : ℚ), t)
  match splitDot body with
  | [intPart] =>
      if intPart ≠ [] ∧ intPart.all Char.isDigit then
        some (sign * (digitsVal intPart : ℚ))
      else Option.none
  | [intPart, fracPart] =>
      if (intPart ≠ [] ∨ fracPart ≠ []) ∧ intPart.all Char.isDigit ∧
          fracPart.all Char.isDigit then
        some (sign * ((digitsVal intPart : ℚ) +
          (digitsVal fracPart : ℚ) / ((10 : ℚ) ^ fracPart.length)))
      else Option.none
  | _ => Option.none

/-- Python `float(x)` on a `PyVal`: numbers pass through, booleans become
`0`/`1`, decimal strings parse, everything else raises (modelled as
`Except.error` carrying the exception message). -/
def pyFloatOf : PyVal → Except String ℚ
  | .num q => .ok q
  | .pyBool b => .ok (if b then 1 else 0)
  | .str s =>
      match parsePyFloat s with
      | some q => .ok q
      | Option.none =>
          .error ("could not convert string to float: \x27" ++ s ++ "\x27")
  | .pyNone =>
      .error "float() argument must be a string or a real number, not \x27NoneType\x27"

/-- Python `a ** b` on floats.  Integral exponents are exact; `0.0` to a
negative power raises `ZeroDivisionError`.  A fractional exponent lies
outside the exactly-representable fragment and its (IEEE) value is
irrelevant to every verified claim; it is modelled by `0` so that the
operation still succeeds, as it does in Python. -/
def pyPow (a b : ℚ) : Except String ℚ :=
  if b.den = 1 then
    if b.num < 0 ∧ a = 0 then
      .error "0.0 cannot be raised to a negative power"
    else if 0 ≤ b.num then .ok (a ^ b.num.toNat)
    else .ok (1 / a ^ (-b.num).toNat)
  else .ok 0

/-- `math.sqrt` on a non-negative value, exact on rationals whose
numerator and denominator are perfect squares (the only inputs any
verified claim evaluates it on); elsewhere the value returned by this
model is an unconstrained stand-in for the IEEE result. -/
def pySqrt (q : ℚ) : ℚ :=
  (Nat.sqrt q.num.toNat : ℚ) / (Nat.sqrt q.den : ℚ)

/-- One element of a `content` array: `{"type": ..., "text": ...}`. -/
structure ContentItem where
  type : String
  text : String
  deriving DecidableEq, Repr

/-- The dict returned by a tool handler.  Each field is `Option`al
because a Python dict either carries a key or does not: a success result
is `{"content": [...], "isError": False}` (no `error` key) and a failure
result is `{"error": ...}` (no `content`/`isError` keys). -/
structure ToolResult where
  content : Option (List ContentItem)
  isError : Option Bool
  error : Option String
  deriving DecidableEq, Repr

/-- The success envelope `{"content": [{"type": "text", "text": t}],
"isError": False}` shared by all three tool handlers. -/
def ToolResult.ok (t : String) : ToolResult :=
  { content := some [{ type := "text", text := t }],
    isError := some false,
    error := Option.none }

/-- The failure envelope `{"error": e}`. -/
def ToolResult.err (e : String) : ToolResult :=
  { content := Option.none, isError := Option.none, error := some e }

/-- Body of the `try:` block of `MCPServer._calculator_handler`
(`app.py` lines 160–192).  `Except.error` is a raised exception, caught
by the handler's `except` clause. -/
def calcBody (params : PyDict) : Except String ToolResult :=
  let operation := params.get "operation" PyVal.pyNone
  match pyFloatOf (params.get "a" (PyVal.num 0)) with
  | .error e => .error e
  | .ok a =>
  match pyFloatOf (params.get "b" (PyVal.num 0)) with
  | .error e => .error e
  | .ok b =>
  if operation = .str "add" then
    .ok (ToolResult.ok ("Result: " ++ pyFloatStr (a + b)))
  else if operation = .str "subtract" then
    .ok (ToolResult.ok ("Result: " ++ pyFloatStr (a - b)))
  else if operation = .str "multiply" then
    .ok (ToolResult.ok ("Result: " ++ pyFloatStr (a * b)))
  else if operation = .str "divide" then
    if b = 0 then .ok (ToolResult.err "Division by zero is not allowed")
    else .ok (ToolResult.ok ("Result: " ++ pyFloatStr (a / b)))
  else if operation = .str "power" then
    match pyPow a b with
    | .ok r => .ok (ToolResult.ok ("Result: " ++ pyFloatStr r))
    | .error e => .error e
  else if operation = .str "sqrt" then
    if a < 0 then
      .ok (ToolResult.err "Square root of negative number is not allowed")
    else .ok (ToolResult.ok ("Result: " ++ pyFloatStr (pySqrt a)))
  else
    .ok (ToolResult.err ("Unknown operation: " ++ pyStr operation))

/-- `MCPServer._calculator_handler` (`app.py` lines 158–194): run the
body and convert any raised exception into `{"error": str(e)}`. -/
def calculator_handler (params : PyDict) : ToolResult :=
  match calcBody params with
  | .ok r => r
  | .error e => ToolResult.err e

/-- `MCPServer._time_handler` (`app.py` lines 196–212).  The wall-clock
reading `now` stands for `datetime.now().strftime('%Y-%m-%d %H:%M:%S')`;
nothing in the body can raise, so the `except` clause is dead. -/
def time_handler (now : String) (params : PyDict) : ToolResult :=
  ToolResult.ok
    ("Current time (" ++ pyStr (params.get "timezone" (PyVal.str "UTC")) ++ "): " ++ now)

/-- The canned `mock_weather` dict of `_weather_handler`
(`app.py` lines 221–226). -/
structure MockWeather where
  temperature : String
  condition : String
  humidity : String
  wind : String
  deriving DecidableEq, Repr

def mock_weather : MockWeather :=
  { temperature := "22°C",
    condition := "Partly cloudy",
    humidity := "65%",
    wind := "10 km/h" }

/-- The `location` local of `_weather_handler` (`app.py` lines 217–228):
`f"{city}, {country}" if country else city`, with the Python defaults
`city = params.get("city", "Unknown")` and `country =
params.get("country", "")`. -/
def weatherLocation (params : PyDict) : String :=
  let city := params.get "city" (PyVal.str "Unknown")
  let country := params.get "country" (PyVal.str "")
  if pyTruthy country then pyStr city ++ ", " ++ pyStr country
  else pyStr city

/-- `MCPServer._weather_handler` (`app.py` lines 214–245): the
`weather_text` accumulation mirrors the source's `+=` chain.  Nothing in
the body can raise, so the `except` clause is dead. -/
def weather_handler (params : PyDict) : ToolResult :=
  let weather_text := "Weather in " ++ weatherLocation params ++ ":\n"
  let weather_text := weather_text ++ "Temperature: " ++ mock_weather.temperature ++ "\n"
  let weather_text := weather_text ++ "Condition: " ++ mock_weather.condition ++ "\n"
  let weather_text := weather_text ++ "Humidity: " ++ mock_weather.humidity ++ "\n"
  let weather_text := weather_text ++ "Wind: " ++ mock_weather.wind
  ToolResult.ok weather_text

/-- The slice of a registered tool's schema dict that the verified
claims inspect: its `name`, `description` and the `inputSchema`'s
`required` list (`app.py` lines 71–131; of the two definitions of
`_register_default_tools` in the class body the second one overrides the
first, so the `inputSchema` variant is the live one). -/
structure ToolSchema where
  name : String
  description : String
  required : List String
  deriving DecidableEq, Repr

/-- A registered resource's schema dict (`app.py` lines 135–140). -/
structure ResourceSchema where
  uri : String
  name : String
  description : String
  mimeType : String
  deriving DecidableEq, Repr

/-- One element of the `contents` array returned by the server-info
resource handler: `{"uri": ..., "mimeType": ..., "text": ...}`. -/
structure ResourceContents where
  uri : String
  mimeType : String
  text : String
  deriving DecidableEq, Repr

/-- The dict returned by a resource handler:
`{"contents": [...]}` (`app.py` lines 258–266). -/
structure ResourceResult where
  contents : List ResourceContents
  deriving DecidableEq, Repr

/-- A session record: `{"clientInfo": ..., "created": ...}`
(`app.py` lines 393–396).  The `clientInfo` value is opaque to every
operation in scope. -/
structure Session where
  clientInfo : PyVal
  created : String
  deriving DecidableEq, Repr

/-- A `self.tools[name]` entry: `{"schema": ..., "handler": ...}`. -/
structure ToolEntry where
  schema : ToolSchema
  handler : PyDict → ToolResult

/-- A `self.resources[name]` entry: `{"schema": ..., "handler": ...}`. -/
structure ResourceEntry where
  schema : ResourceSchema
  handler : PyDict → ResourceResult

/-- Python `d[k] = v` on a string-keyed dict: replace the binding in
place if the key exists, else append (insertion order preserved). -/
def dictSet {α : Type} (m : List (String × α)) (k : String) (v : α) :
    List (String × α) :=
  match m with
  | [] => [(k, v)]
  | (k₀, v₀) :: rest =>
      if k₀ = k then (k, v) :: rest else (k₀, v₀) :: dictSet rest k v

/-- The `MCPServer` object state.  `__init__` (`app.py` lines 23–30)
assigns `self.tools`, `self.resources` and `self.capabilities` (split
here into its `"tools"` and `"resources"` sub-dicts) — and nothing else:
in particular no `self.sessions` attribute is ever created anywhere in
the class.  An attribute that may be absent is modelled as an `Option`,
`Option.none` meaning "reading it raises `AttributeError`". -/
structure MCPServer where
  tools : List (String × ToolEntry)
  resources : List (String × ResourceEntry)
  capTools : List (String × ToolSchema)
  capResources : List (String × ResourceSchema)
  sessions : Option (List (String × Session))

/-- `MCPServer.register_tool` (`app.py` lines 142–148). -/
def register_tool (s : MCPServer) (name : String) (schema : ToolSchema)
    (handler : PyDict → ToolResult) : MCPServer :=
  { s with
    tools := dictSet s.tools name { schema := schema, handler := handler },
    capTools := dictSet s.capTools name schema }

/-- `MCPServer.register_resource` (`app.py` lines 150–156). -/
def register_resource (s : MCPServer) (name : String) (schema : ResourceSchema)
    (handler : PyDict → ResourceResult) : MCPServer :=
  { s with
    resources := dictSet s.resources name { schema := schema, handler := handler },
    capResources := dictSet s.capResources name schema }

def calculatorSchema : ToolSchema :=
  { name := "calculator",
    description := "Perform mathematical calculations",
    required := ["operation", "a"] }

def timeSchema : ToolSchema :=
  { name := "get_current_time",
    description := "Get the current date and time",
    required := [] }

def weatherSchema : ToolSchema :=
  { name := "weather_info",
    description := "Get weather information for a city",
    required := ["city"] }

/-- `MCPServer._register_default_tools` (`app.py` lines 71–131, the
overriding second definition).  `now` is the wall-clock reading the time
handler will use when invoked (no claim observes two distinct
invocation times, so it is fixed at construction). -/
def registerDefaultTools (now : String) (s : MCPServer) : MCPServer :=
  let s := register_tool s "calculator" calculatorSchema calculator_handler
  let s := register_tool s "get_current_time" timeSchema (time_handler now)
  register_tool s "weather_info" weatherSchema weather_handler

def serverInfoSchema : ResourceSchema :=
  { uri := "mcp://server/info",
    name := "Server Information",
    description := "Information about this MCP server",
    mimeType := "application/json" }

/-- A JSON string literal as `json.dumps` renders it (none of the values
involved contains a character that needs escaping). -/
def jsonQ (s : String) : String := "\"" ++ s ++ "\""

/-- The `capabilities` array of the server-info JSON body, as
`json.dumps(..., indent=2)` renders a list of strings. -/
def jsonCapsArray (caps : List String) : String :=
  match caps with
  | [] => "[]"
  | _ =>
      "[\n" ++ String.intercalate ",\n" (caps.map (fun s => "    " ++ jsonQ s)) ++
        "\n  ]"

/-- `json.dumps(server_info, indent=2)` for the dict built in
`_server_info_handler` (`app.py` lines 249–256): `capabilities` is
`list(self.capabilities["tools"].keys())`, `uptime` is `time.time()`
and `timestamp` is `datetime.now().isoformat()`. -/
def serverInfoText (caps : List String) (uptime : ℚ) (timestamp : String) : String :=
  "\x7b\n  " ++ jsonQ "name" ++ ": " ++ jsonQ "Flask MCP Server" ++ ",\n  " ++
    jsonQ "version" ++ ": " ++ jsonQ "1.0.0" ++ ",\n  " ++
    jsonQ "description" ++ ": " ++ jsonQ "A Flask-based Model Context Protocol server" ++ ",\n  " ++
    jsonQ "capabilities" ++ ": " ++ jsonCapsArray caps ++ ",\n  " ++
    jsonQ "uptime" ++ ": " ++ pyFloatStr uptime ++ ",\n  " ++
    jsonQ "timestamp" ++ ": " ++ jsonQ timestamp ++ "\n\x7d"

/-- `MCPServer._server_info_handler` (`app.py` lines 247–266).  `caps`
is the key list of `self.capabilities["tools"]` at call time; `uptime`
and `timestamp` are the wall-clock readings. -/
def server_info_handler (caps : List String) (uptime : ℚ) (timestamp : String)
    (_params : PyDict) : ResourceResult :=
  { contents :=
      [{ uri := "mcp://server/info",
         mimeType := "application/json",
         text := serverInfoText caps uptime timestamp }] }

/-- `MCPServer._register_default_resources` (`app.py` lines 133–140).
Defined on the class but never invoked: `__init__` calls only
`_register_default_tools`. -/
def registerDefaultResources (uptime : ℚ) (timestamp : String) (s : MCPServer) :
    MCPServer :=
  register_resource s "server_info" serverInfoSchema
    (server_info_handler (s.capTools.map Prod.fst) uptime timestamp)

/-- `MCPServer.__init__` followed by the module-level
`mcp_server = MCPServer()` (`app.py` lines 22–30, 273): empty `tools`,
`resources` and `capabilities` dicts, then `_register_default_tools()`.
`_register_default_resources` is never called, and no `sessions`
attribute is ever assigned. -/
def mcp_server (now : String) : MCPServer :=
  registerDefaultTools now
    { tools := [],
      resources := [],
      capTools := [],
      capResources := [],
      sessions := Option.none }

/-- Registered tool names, in registration order. -/
def MCPServer.toolNames (s : MCPServer) : List String :=
  s.tools.map Prod.fst

/-- URIs of the registered resources, in registration order. -/
def MCPServer.resourceUris (s : MCPServer) : List String :=
  s.resources.map (fun kv => kv.2.schema.uri)

/-- Outcome of `POST /mcp/tools/call` (`app.py` lines 426–443):
HTTP 200 with the handler's result, HTTP 404 `{"error": ...}` when the
name is not a key of `self.tools`, or HTTP 500 `{"error": str(e)}` from
the route's `except` clause (unreachable in the model because every
embedded handler is total, mirroring that each handler catches its own
faults). -/
inductive CallOutcome where
  | ok (result : ToolResult)
  | notFound (error : String)
  | internalError (error : String)
  deriving DecidableEq, Repr

/-- The `call_tool` route (`app.py` lines 426–443).  Extracting
`name`/`arguments` from the JSON body is transport, out of scope; the
route receives the `tool_name` value (`None` when the key is absent)
and the arguments dict (`{}` when absent).  Membership `tool_name not
in mcp_server.tools` compares the value against the string keys. -/
def call_tool (s : MCPServer) (tool_name : PyVal) (arguments : PyDict) :
    CallOutcome :=
  match s.tools.find? (fun kv => tool_name == PyVal.str kv.1) with
  | Option.none => .notFound ("Tool \x27" ++ pyStr tool_name ++ "\x27 not found")
  | some kv => .ok (kv.2.handler arguments)

/-- Outcome of `POST /mcp/resources/read` (`app.py` lines 458–479). -/
inductive ReadOutcome where
  | ok (result : ResourceResult)
  | notFound (error : String)
  | internalError (error : String)
  deriving DecidableEq, Repr

/-- The `read_resource` route (`app.py` lines 458–479): linear scan of
`self.resources.items()` in insertion order comparing each entry's
`schema["uri"]` with the requested value; the first match's handler is
invoked with `{}`.  (A found handler is a bound method and therefore
truthy, so `if not resource_handler` fires exactly when no URI
matched.) -/
def read_resource (s : MCPServer) (uri : PyVal) : ReadOutcome :=
  match s.resources.find? (fun kv => uri == PyVal.str kv.2.schema.uri) with
  | Option.none =>
      .notFound ("Resource with URI \x27" ++ pyStr uri ++ "\x27 not found")
  | some kv => .ok (kv.2.handler [])

/-- The success body of `POST /mcp/initialize` (`app.py` lines 398–406). -/
structure InitResponse where
  protocolVersion : String
  capTools : List (String × ToolSchema)
  capResources : List (String × ResourceSchema)
  serverName : String
  serverVersion : String
  sessionId : String
  deriving DecidableEq, Repr

/-- Outcome of `POST /mcp/initialize`: HTTP 200 with the response body,
or HTTP 500 `{"error": str(e)}` from the route's `except` clause. -/
inductive InitOutcome where
  | ok (resp : InitResponse)
  | internalError (error : String)
  deriving DecidableEq, Repr

/-- The `initialize` route (`app.py` lines 386–411).  `sessionId` stands
for the fresh `str(uuid.uuid4())` and `created` for
`datetime.now().isoformat()`; `clientInfo` is the value of
`data.get("clientInfo", {})`.  The route writes
`mcp_server.sessions[session_id]` — if the object has no `sessions`
attribute this raises `AttributeError`, which the `except` clause turns
into the 500 response. -/
def initializeRoute (s : MCPServer) (sessionId : String) (created : String)
    (clientInfo : PyVal) : MCPServer × InitOutcome :=
  match s.sessions with
  | Option.none =>
      (s, .internalError "\x27MCPServer\x27 object has no attribute \x27sessions\x27")
  | some m =>
      ({ s with sessions := some (dictSet m sessionId
          { clientInfo := clientInfo, created := created }) },
       .ok { protocolVersion := "2024-11-05",
             capTools := s.capTools,
             capResources := s.capResources,
             serverName := "Flask MCP Server",
             serverVersion := "1.0.0",
             sessionId := sessionId })

/-- The four constant field lines of the weather output, shared by every
invocation (the location line is prepended in front of them). -/
def weatherBlock : String :=
  "Temperature: " ++ mock_weather.temperature ++ "\n" ++
  "Condition: " ++ mock_weather.condition ++ "\n" ++
  "Humidity: " ++ mock_weather.humidity ++ "\n" ++
  "Wind: " ++ mock_weather.wind

/-- A success envelope: a `content` key, `isError` present and `False`,
and no `error` key. -/
def isSuccessEnvelope (r : ToolResult) : Prop :=
  (∃ c, r.content = some c) ∧ r.isError = some false ∧ r.error = Option.none

/-- A failure envelope: an `error` key and neither `content` nor
`isError`. -/
def isFailureEnvelope (r : ToolResult) : Prop :=
  r.content = Option.none ∧ r.isError = Option.none ∧ ∃ e, r.error = some e

theorem str_append_assoc (a b c : String) : a ++ b ++ c = a ++ (b ++ c) := by
  cases a
  cases b
  cases c
  exact congrArg String.mk (List.append_assoc _ _ _)

/-- `C1`: reading the resource with URI `mcp://server/info` does NOT
succeed on the server as constructed: `__init__` never invokes
`_register_default_resources`, so the resources registry is empty and
the read is a dispatch-level 404, whatever the wall clock read at
startup. -/
theorem read_server_info_not_found (now : String) :
    read_resource (mcp_server now) (PyVal.str "mcp://server/info") =
      ReadOutcome.notFound "Resource with URI \x27mcp://server/info\x27 not found" := by
  rfl

/-- `C1` (supporting): had `_register_default_resources` been called,
the handler it registers reports as `capabilities` exactly the
registered tool names, wrapped in the `uri`/`mimeType`/`text` envelope. -/
theorem server_info_handler_capabilities (now creatTs : String) (uptime : ℚ) :
    ∃ t : String,
      (registerDefaultResources uptime creatTs (mcp_server now)).resources =
        [("server_info",
          { schema := serverInfoSchema,
            handler := server_info_handler ((mcp_server now).capTools.map Prod.fst) uptime creatTs })] ∧
      server_info_handler ((mcp_server now).capTools.map Prod.fst) uptime creatTs [] =
        { contents := [{ uri := "mcp://server/info", mimeType := "application/json", text := t }] } ∧
      t = serverInfoText ["calculator", "get_current_time", "weather_info"] uptime creatTs := by
  refine ⟨_, ?_, rfl, rfl⟩
  rfl

/-- `C2`: every `initialize` call on the server as constructed returns
the HTTP 500 error outcome — `__init__` never creates the `sessions`
attribute, so `mcp_server.sessions[session_id] = ...` raises
`AttributeError` and the route's `except` clause reports it.  No
session is ever recorded and no success body (`protocolVersion`,
`capabilities`, `serverInfo`, `sessionId`) is ever returned. -/
theorem initializeRoute_always_500 (now sid created : String) (clientInfo : PyVal) :
    (initializeRoute (mcp_server now) sid created clientInfo).2 =
      InitOutcome.internalError
        "\x27MCPServer\x27 object has no attribute \x27sessions\x27" ∧
    (initializeRoute (mcp_server now) sid created clientInfo).1.sessions =
      Option.none := by
  exact ⟨rfl, rfl⟩

theorem calcBody_ok_shape (d : PyDict) (r : ToolResult) (h : calcBody d = Except.ok r) :
    (∃ t, r = ToolResult.ok t) ∨ (∃ e, r = ToolResult.err e) := by
  simp only [calcBody] at h
  repeat' split at h
  all_goals
    first
      | (injection h with h2; exact Or.inl ⟨_, h2.symm⟩)
      | (injection h with h2; exact Or.inr ⟨_, h2.symm⟩)
      | exact Except.noConfusion h

/-- `C3` (counterexample): a handler-level failure result carries only
the `error` key — `isError` is NOT present in it (the dict returned on
the division-by-zero path is `{"error": ...}` with no `isError` key),
refuting "`isError` is present and boolean-valued in every tool
result". -/
theorem calc_failure_result_lacks_isError :
    (calculator_handler
        [("operation", PyVal.str "divide"), ("a", PyVal.num 4), ("b", PyVal.num 0)]).error =
      some "Division by zero is not allowed" ∧
    (calculator_handler
        [("operation", PyVal.str "divide"), ("a", PyVal.num 4), ("b", PyVal.num 0)]).isError =
      Option.none := by
  exact ⟨rfl, rfl⟩

/-- `C3` (amended): for every arguments mapping, each built-in tool
handler returns either the success envelope `{content, isError: False}`
(with `isError` present and equal to `False` and no `error` key) or
the failure envelope `{error}` (with neither `content` nor `isError`)
— never both populated; `isError` is present and boolean-valued in
every success result but absent from failure results. -/
theorem builtin_results_are_envelopes (args : PyDict) (now : String) :
    (isSuccessEnvelope (calculator_handler args) ∨ isFailureEnvelope (calculator_handler args)) ∧
    (isSuccessEnvelope (time_handler now args) ∨ isFailureEnvelope (time_handler now args)) ∧
    (isSuccessEnvelope (weather_handler args) ∨ isFailureEnvelope (weather_handler args)) := by
  refine ⟨?_, Or.inl ?_, Or.inl ?_⟩
  · unfold calculator_handler
    cases hc : calcBody args with
    | error e => exact Or.inr ⟨rfl, rfl, e, rfl⟩
    | ok r =>
        rcases calcBody_ok_shape args r hc with ⟨t, rfl⟩ | ⟨e, rfl⟩
        · exact Or.inl ⟨⟨_, rfl⟩, rfl, rfl⟩
        · exact Or.inr ⟨rfl, rfl, e, rfl⟩
  · exact ⟨⟨_, rfl⟩, rfl, rfl⟩
  · exact ⟨⟨_, rfl⟩, rfl, rfl⟩

/-- `C6`: on a valid operation the calculator computes with exact
arithmetic (coinciding with IEEE doubles on these exactly-representable
values: `add(2,3)=5`, `power(2,10)=1024`, `divide(5,2)=2.5`) and its
sole content text is `Result: {value}` with `{value}` rendered by the
native `str(float)` conversion (`5.0`, `1024.0`, `2.5` — not a fixed
decimal format). -/
theorem calculator_results_native_format :
    calculator_handler [("operation", PyVal.str "add"), ("a", PyVal.num 2), ("b", PyVal.num 3)] =
      ToolResult.ok "Result: 5.0" ∧
    calculator_handler [("operation", PyVal.str "power"), ("a", PyVal.num 2), ("b", PyVal.num 10)] =
      ToolResult.ok "Result: 1024.0" ∧
    calculator_handler [("operation", PyVal.str "divide"), ("a", PyVal.num 5), ("b", PyVal.num 2)] =
      ToolResult.ok "Result: 2.5" := by
  refine ⟨?_, ?_, ?_⟩
  · simp +decide [calculator_handler, calcBody, PyDict.get, PyDict.lookup, pyFloatOf,
      pyFloatStr, pyFloatStrNN]
    norm_num
    decide
  · simp +decide [calculator_handler, calcBody, PyDict.get, PyDict.lookup, pyFloatOf,
      pyFloatStr, pyFloatStrNN, pyPow]
  · simp +decide [calculator_handler, calcBody, PyDict.get, PyDict.lookup, pyFloatOf,
      pyFloatStr, pyFloatStrNN]
    norm_num
    decide

theorem get_of_lookup_none (d : PyDict) (k : String) (dflt : PyVal)
    (h : d.lookup k = Option.none) : d.get k dflt = dflt := by
  simp [PyDict.get, h]

theorem get_cons_ne (d : PyDict) (k k2 : String) (v dflt : PyVal) (h : ¬ k = k2) :
    PyDict.get ((k, v) :: d) k2 dflt = PyDict.get d k2 dflt := by
  simp [PyDict.get, PyDict.lookup, h]

theorem calculator_handler_congr (d d2 : PyDict)
    (hop : d.get "operation" PyVal.pyNone = d2.get "operation" PyVal.pyNone)
    (hA : d.get "a" (PyVal.num 0) = d2.get "a" (PyVal.num 0))
    (hB : d.get "b" (PyVal.num 0) = d2.get "b" (PyVal.num 0)) :
    calculator_handler d = calculator_handler d2 := by
  simp only [calculator_handler, calcBody, hop, hA, hB]

/-- `C5`: the calculator returns handler-level error results (the
`{"error": ...}` envelope, not a raised exception): divide with `b = 0`
gives "Division by zero is not allowed", sqrt of a negative `a` gives
"Square root of negative number is not allowed", and any operation
string outside the six known ones gives "Unknown operation:
{operation}".  (The hypotheses `ha`/`hb` say the two operands convert
cleanly to numbers — `float()` runs on both before the operation is
dispatched, so an unconvertible operand would surface its own
conversion error instead.) -/
theorem calculator_error_messages (d : PyDict) (a b : ℚ)
    (ha : pyFloatOf (d.get "a" (PyVal.num 0)) = Except.ok a)
    (hb : pyFloatOf (d.get "b" (PyVal.num 0)) = Except.ok b) :
    (d.get "operation" PyVal.pyNone = PyVal.str "divide" → b = 0 →
        calculator_handler d = ToolResult.err "Division by zero is not allowed") ∧
    (d.get "operation" PyVal.pyNone = PyVal.str "sqrt" → a < 0 →
        calculator_handler d = ToolResult.err "Square root of negative number is not allowed") ∧
    (∀ op : String, d.get "operation" PyVal.pyNone = PyVal.str op →
        op ∉ (["add", "subtract", "multiply", "divide", "power", "sqrt"] : List String) →
        calculator_handler d = ToolResult.err ("Unknown operation: " ++ op)) := by
  refine ⟨?_, ?_, ?_⟩
  · intro hop hbz
    simp +decide [calculator_handler, calcBody, hop, ha, hb, hbz]
  · intro hop haneg
    simp +decide [calculator_handler, calcBody, hop, ha, hb, haneg]
  · intro op hop hmem
    simp only [List.mem_cons, List.not_mem_nil, or_false, not_or] at hmem
    obtain ⟨h1, h2, h3, h4, h5, h6⟩ := hmem
    simp [calculator_handler, calcBody, hop, ha, hb, pyStr, h1, h2, h3, h4, h5, h6]

/-- `C5` (witness): the three error messages at `divide(4,0)`,
`sqrt(-1)` and the unknown operation `"mod"`. -/
theorem calculator_error_messages_witness :
    calculator_handler [("operation", PyVal.str "divide"), ("a", PyVal.num 4), ("b", PyVal.num 0)] =
      ToolResult.err "Division by zero is not allowed" ∧
    calculator_handler [("operation", PyVal.str "sqrt"), ("a", PyVal.num (-1))] =
      ToolResult.err "Square root of negative number is not allowed" ∧
    calculator_handler [("operation", PyVal.str "mod"), ("a", PyVal.num 1)] =
      ToolResult.err "Unknown operation: mod" := by
  refine ⟨(calculator_error_messages
            [("operation", PyVal.str "divide"), ("a", PyVal.num 4), ("b", PyVal.num 0)]
            4 0 rfl rfl).1 rfl rfl,
          (calculator_error_messages [("operation", PyVal.str "sqrt"), ("a", PyVal.num (-1))]
            (-1) 0 rfl rfl).2.1 rfl (by norm_num),
          (calculator_error_messages [("operation", PyVal.str "mod"), ("a", PyVal.num 1)]
            1 0 rfl rfl).2.2 "mod" rfl (by decide)⟩

/-- `C7`: when `a` (resp. `b`) is absent from the arguments mapping,
the calculator substitutes `0` for it — `float(params.get(..., 0))`
yields `0` and the whole handler behaves exactly as if the mapping
carried the binding `0` — rather than raising or returning a validation
error. -/
theorem calculator_missing_operand_defaults_zero (d : PyDict) :
    (d.lookup "a" = Option.none →
        pyFloatOf (d.get "a" (PyVal.num 0)) = Except.ok 0 ∧
        calculator_handler d = calculator_handler (("a", PyVal.num 0) :: d)) ∧
    (d.lookup "b" = Option.none →
        pyFloatOf (d.get "b" (PyVal.num 0)) = Except.ok 0 ∧
        calculator_handler d = calculator_handler (("b", PyVal.num 0) :: d)) := by
  constructor
  · intro h
    have hget : d.get "a" (PyVal.num 0) = PyVal.num 0 := get_of_lookup_none d _ _ h
    refine ⟨by rw [hget]; rfl, ?_⟩
    apply calculator_handler_congr
    · exact (get_cons_ne d "a" "operation" (PyVal.num 0) PyVal.pyNone (by decide)).symm
    · rw [hget]
      exact (by simp [PyDict.get, PyDict.lookup] :
        PyDict.get (("a", PyVal.num 0) :: d) "a" (PyVal.num 0) = PyVal.num 0).symm
    · exact (get_cons_ne d "a" "b" (PyVal.num 0) (PyVal.num 0) (by decide)).symm
  · intro h
    have hget : d.get "b" (PyVal.num 0) = PyVal.num 0 := get_of_lookup_none d _ _ h
    refine ⟨by rw [hget]; rfl, ?_⟩
    apply calculator_handler_congr
    · exact (get_cons_ne d "b" "operation" (PyVal.num 0) PyVal.pyNone (by decide)).symm
    · exact (get_cons_ne d "b" "a" (PyVal.num 0) (PyVal.num 0) (by decide)).symm
    · rw [hget]
      exact (by simp [PyDict.get, PyDict.lookup] :
        PyDict.get (("b", PyVal.num 0) :: d) "b" (PyVal.num 0) = PyVal.num 0).symm

/-- `C7` (witness): with `a` absent, the handler behaves as with
`a = 0` bound. -/
theorem calculator_missing_operand_witness :
    pyFloatOf (PyDict.get [("operation", PyVal.str "add")] "a" (PyVal.num 0)) = Except.ok 0 ∧
    calculator_handler [("operation", PyVal.str "add")] =
      calculator_handler [("a", PyVal.num 0), ("operation", PyVal.str "add")] :=
  (calculator_missing_operand_defaults_zero [("operation", PyVal.str "add")]).1 rfl

/-- `C8`: a fault raised inside the calculator body is caught and
converted to a result whose `error` is the fault's message; and the
`call_tool` route returns a registered handler's result as an HTTP 200
body, so no handler fault propagates to the caller. -/
theorem handler_fault_converted_to_error (d : PyDict) (e : String)
    (h : calcBody d = Except.error e) :
    calculator_handler d = ToolResult.err e ∧
    (∀ now : String, call_tool (mcp_server now) (PyVal.str "calculator") d =
        CallOutcome.ok (calculator_handler d)) := by
  constructor
  · simp [calculator_handler, h]
  · intro now
    rfl

/-- `C8` (witness): `float(None)` raising inside the calculator is
converted to the error envelope carrying the exception's message. -/
theorem handler_fault_converted_witness :
    calculator_handler [("operation", PyVal.str "add"), ("a", PyVal.pyNone)] =
      ToolResult.err "float() argument must be a string or a real number, not \x27NoneType\x27" :=
  (handler_fault_converted_to_error [("operation", PyVal.str "add"), ("a", PyVal.pyNone)] _ rfl).1

/-- `C9` (counterexample): the weather output is NOT a four-line block —
for the city `Paris` it is five lines (the location line plus the four
canned field lines). -/
theorem weather_output_not_four_lines :
    (weather_handler [("city", PyVal.str "Paris")]).content =
      some [{ type := "text",
              text := "Weather in Paris:\nTemperature: 22°C\nCondition: Partly cloudy\nHumidity: 65%\nWind: 10 km/h" }] ∧
    textLines "Weather in Paris:\nTemperature: 22°C\nCondition: Partly cloudy\nHumidity: 65%\nWind: 10 km/h" =
      ["Weather in Paris:", "Temperature: 22°C", "Condition: Partly cloudy",
       "Humidity: 65%", "Wind: 10 km/h"] ∧
    (textLines "Weather in Paris:\nTemperature: 22°C\nCondition: Partly cloudy\nHumidity: 65%\nWind: 10 km/h").length ≠ 4 := by
  exact ⟨rfl, by decide, by decide⟩

/-- `C9` (amended): for every input the weather output is the location
line followed by the same constant four-line field block — so outputs
for any two cities are byte-identical except for the location line,
which is `City, Country` when a country is given and just `City`
otherwise — a five-line block in total. -/
theorem weather_canned_five_line_block (d : PyDict) :
    weather_handler d =
      ToolResult.ok ("Weather in " ++ weatherLocation d ++ ":\n" ++ weatherBlock) ∧
    (∀ c : String, d.get "city" (PyVal.str "Unknown") = PyVal.str c →
        d.get "country" (PyVal.str "") = PyVal.str "" → weatherLocation d = c) ∧
    (∀ c co : String, d.get "city" (PyVal.str "Unknown") = PyVal.str c →
        d.get "country" (PyVal.str "") = PyVal.str co → co ≠ "" →
        weatherLocation d = c ++ ", " ++ co) ∧
    textLines ("Weather in " ++ "Paris" ++ ":\n" ++ weatherBlock) =
      ["Weather in Paris:", "Temperature: 22°C", "Condition: Partly cloudy",
       "Humidity: 65%", "Wind: 10 km/h"] := by
  refine ⟨?_, ?_, ?_, by decide⟩
  · simp only [weather_handler, weatherBlock, str_append_assoc]
  · intro c hc hco
    simp [weatherLocation, hc, hco, pyTruthy, pyStr]
  · intro c co hc hco hne
    simp [weatherLocation, hc, hco, pyTruthy, pyStr, hne]

/-- `C9` (witness): Tokyo and Paris-with-country instances. -/
theorem weather_canned_witness :
    weather_handler [("city", PyVal.str "Tokyo")] =
      ToolResult.ok ("Weather in " ++ weatherLocation [("city", PyVal.str "Tokyo")] ++ ":\n" ++ weatherBlock) ∧
    weatherLocation [("city", PyVal.str "Tokyo")] = "Tokyo" ∧
    weatherLocation [("city", PyVal.str "Paris"), ("country", PyVal.str "France")] = "Paris, France" :=
  ⟨(weather_canned_five_line_block [("city", PyVal.str "Tokyo")]).1,
   (weather_canned_five_line_block [("city", PyVal.str "Tokyo")]).2.1 "Tokyo" rfl rfl,
   (weather_canned_five_line_block
      [("city", PyVal.str "Paris"), ("country", PyVal.str "France")]).2.2.1
      "Paris" "France" rfl rfl (by decide)⟩

/-- `C10`: with no `city` key in the arguments the weather handler
still succeeds (`isError` is `False`) and renders the location as
`Unknown` (or `Unknown, {country}` when a country is supplied) — even
though the declared input schema lists `city` as required. -/
theorem weather_missing_city_defaults_unknown (d : PyDict)
    (h : d.lookup "city" = Option.none) :
    "city" ∈ weatherSchema.required ∧
    (weather_handler d).isError = some false ∧
    (d.get "country" (PyVal.str "") = PyVal.str "" → weatherLocation d = "Unknown") ∧
    (∀ co : String, d.get "country" (PyVal.str "") = PyVal.str co → co ≠ "" →
        weatherLocation d = "Unknown, " ++ co) := by
  have hc : d.get "city" (PyVal.str "Unknown") = PyVal.str "Unknown" :=
    get_of_lookup_none d _ _ h
  refine ⟨by decide, rfl, ?_, ?_⟩
  · intro hco
    simp [weatherLocation, hc, hco, pyTruthy, pyStr]
  · intro co hco hne
    simp [weatherLocation, hc, hco, pyTruthy, pyStr, hne]

/-- `C10` (witness): no `city`, country `FR`. -/
theorem weather_missing_city_witness :
    "city" ∈ weatherSchema.required ∧
    (weather_handler [("country", PyVal.str "FR")]).isError = some false ∧
    weatherLocation [("country", PyVal.str "FR")] = "Unknown, FR" := by
  obtain ⟨h1, h2, _, h4⟩ :=
    weather_missing_city_defaults_unknown [("country", PyVal.str "FR")] rfl
  exact ⟨h1, h2, h4 "FR" rfl (by decide)⟩

theorem call_tool_not_found_of (s : MCPServer) (tool_name : PyVal) (args : PyDict)
    (ht : ∀ k ∈ s.toolNames, tool_name ≠ PyVal.str k) :
    call_tool s tool_name args =
      CallOutcome.notFound ("Tool \x27" ++ pyStr tool_name ++ "\x27 not found") := by
  unfold call_tool
  rw [List.find?_eq_none.mpr]
  · intro kv hkv
    simp only [beq_iff_eq]
    exact ht kv.1 (List.mem_map.mpr ⟨kv, hkv, rfl⟩)

theorem read_resource_not_found_of (s : MCPServer) (uri : PyVal)
    (hr : ∀ u ∈ s.resourceUris, uri ≠ PyVal.str u) :
    read_resource s uri =
      ReadOutcome.notFound ("Resource with URI \x27" ++ pyStr uri ++ "\x27 not found") := by
  unfold read_resource
  rw [List.find?_eq_none.mpr]
  · intro kv hkv
    simp only [beq_iff_eq]
    exact hr kv.2.schema.uri (List.mem_map.mpr ⟨kv, hkv, rfl⟩)

/-- `C4`: calling a tool whose name matches no registered tool, or
reading a resource whose URI matches no registered resource, yields the
HTTP 404 dispatch failure `{"error": "<Kind> '<name>' not found"}`
naming the missing name/URI; and the outcome is the same for every
server with the same registered names/URIs, whatever its handlers — no
handler is invoked. -/
theorem dispatch_unregistered_not_found (s : MCPServer) (tool_name uri : PyVal)
    (args : PyDict)
    (ht : ∀ k ∈ s.toolNames, tool_name ≠ PyVal.str k)
    (hr : ∀ u ∈ s.resourceUris, uri ≠ PyVal.str u) :
    call_tool s tool_name args =
      CallOutcome.notFound ("Tool \x27" ++ pyStr tool_name ++ "\x27 not found") ∧
    read_resource s uri =
      ReadOutcome.notFound ("Resource with URI \x27" ++ pyStr uri ++ "\x27 not found") ∧
    (∀ s2 : MCPServer, s2.toolNames = s.toolNames → s2.resourceUris = s.resourceUris →
        call_tool s2 tool_name args = call_tool s tool_name args ∧
        read_resource s2 uri = read_resource s uri) := by
  refine ⟨call_tool_not_found_of s tool_name args ht,
          read_resource_not_found_of s uri hr, ?_⟩
  intro s2 hn hu
  rw [call_tool_not_found_of s tool_name args ht,
      read_resource_not_found_of s uri hr,
      call_tool_not_found_of s2 tool_name args (hn ▸ ht),
      read_resource_not_found_of s2 uri (hu ▸ hr)]
  exact ⟨rfl, rfl⟩

/-- `C4` (witness): an unregistered tool name and URI on the server as
constructed. -/
theorem dispatch_unregistered_witness :
    call_tool (mcp_server "t") (PyVal.str "translate") [] =
      CallOutcome.notFound "Tool \x27translate\x27 not found" ∧
    read_resource (mcp_server "t") (PyVal.str "mcp://server/other") =
      ReadOutcome.notFound "Resource with URI \x27mcp://server/other\x27 not found" := by
  obtain ⟨h1, h2, _⟩ := dispatch_unregistered_not_found (mcp_server "t")
      (PyVal.str "translate") (PyVal.str "mcp://server/other") [] (by decide) (by decide)
  exact ⟨h1, h2⟩
